import Mathlib

/-!
Shallow embedding of the `ethan_tracker` storage and aggregation layer.

The Python source keeps all durable state in one PostgreSQL table
`training_sessions` (src/utils/data_handler.py).  We model the database as a
list of rows plus the next SERIAL id, and each store operation
(`create_table`, `save_training_session`, `fetch_all_sessions`,
`delete_session`) as a pure function from an explicit connection/execution
availability and the database state to the new state together with the
outcome it signals to the user (via `st.success` / `st.error` /
`st.warning` in the source).  Connection acquisition failure
(`get_connection` returning `None` after catching the exception) and a
failure while executing the SQL statement (the `except` branches) are the
two failure channels and are passed in as booleans.
-/

namespace EthanTracker

/-- Model of `models/training_session.py` `TrainingSession`: the value the
presentation layer hands to the store.  `date` is an abstract timestamp,
`position` is `none` when the Python value is `None`. -/
structure TrainingSession where
  date : Nat
  session_type : String
  duration_mins : Int
  position : Option String
  goals : Int
  assists : Int
  tackles : Int
  passes_completed : Int
  crosses : Int
  shots_on_target : Int
  rating : Int
  comments : String
deriving DecidableEq

/-- Model of one stored row of the `training_sessions` table
(src/utils/data_handler.py `create_table`): the session fields plus the
SERIAL primary key `id` and the insertion-time `created_at`. -/
structure Row where
  id : Nat
  date : Nat
  session_type : String
  duration_mins : Int
  position : Option String
  goals : Int
  assists : Int
  tackles : Int
  passes_completed : Int
  crosses : Int
  shots_on_target : Int
  rating : Int
  comments : String
  created_at : Nat
deriving DecidableEq

/-- The database state: the stored rows and the next value of the SERIAL
`id` column. -/
structure DB where
  rows : List Row
  nextId : Nat
deriving DecidableEq

/-- A freshly created database: no rows, SERIAL counter at 1. -/
def emptyDB : DB := ⟨[], 1⟩

/-- Outcome signalled by `save_training_session`: `st.success` on insert,
the duplicate `st.error` message when `cur.rowcount == 0`, and the
connection/exception error channel. -/
inductive SaveOutcome where
  | Saved
  | DuplicateSkipped
  | ConnectionFailed
deriving DecidableEq

/-- Outcome signalled by `fetch_all_sessions`: either a successful read or
the connection/exception error channel (`st.error`). -/
inductive FetchOutcome where
  | FetchOk
  | ConnectionFailed
deriving DecidableEq

/-- Outcome signalled by `delete_session`: `True` with a committed delete,
the `st.warning "Session not found."` branch, or the connection/exception
error channel. -/
inductive DeleteOutcome where
  | Deleted
  | NotFound
  | ConnectionFailed
deriving DecidableEq

/-- Whether the process can proceed after `create_table`: `Fatal` models an
exception escaping `create_table` (it has no try/except around
`cur.execute`), which aborts the startup code path in `app.py`. -/
inductive SchemaOutcome where
  | Continue
  | Fatal
deriving DecidableEq

/-- Model of `create_table` (src/utils/data_handler.py lines 30-59) acting
on the schema state `tableExists`.  `CREATE TABLE IF NOT EXISTS` makes the
statement idempotent.  If `get_connection` fails (`connOk = false`) the
function silently skips the body (`if conn:`) and returns; if the statement
itself raises (`execOk = false`) the exception escapes, which is fatal. -/
def create_table (connOk execOk : Bool) (tableExists : Bool) : Bool × SchemaOutcome :=
  if connOk then
    if execOk then (true, SchemaOutcome.Continue)
    else (tableExists, SchemaOutcome.Fatal)
  else (tableExists, SchemaOutcome.Continue)

/-- Model of the `position` coercion in `save_training_session`:
`session.position if session.position != "None" else None`. -/
def coercePosition (p : Option String) : Option String :=
  if p = some "None" then none else p

/-- The row inserted for a session: SERIAL id, the session fields with the
`position` coercion applied, and `created_at` set to the insertion time
(`DEFAULT NOW()`). -/
def mkRow (id now : Nat) (s : TrainingSession) : Row :=
  ⟨id, s.date, s.session_type, s.duration_mins, coercePosition s.position,
    s.goals, s.assists, s.tackles, s.passes_completed, s.crosses,
    s.shots_on_target, s.rating, s.comments, now⟩

/-- Whether an insert of `s` hits the `UNIQUE(date, session_type)`
constraint: some stored row already has the same `(date, session_type)`
pair. -/
def conflict (db : DB) (s : TrainingSession) : Bool :=
  db.rows.any fun r => r.date == s.date && r.session_type == s.session_type

/-- Model of `save_training_session` (src/utils/data_handler.py lines
64-106).  `INSERT ... ON CONFLICT (date, session_type) DO NOTHING`: on a
conflicting pair `cur.rowcount` is 0, nothing is committed and the
duplicate message is shown; otherwise the row is inserted and committed.
A failed connection or a raised statement reports an error and leaves the
database unchanged (no commit). -/
def save_training_session (connOk execOk : Bool) (now : Nat) (db : DB)
    (s : TrainingSession) : DB × SaveOutcome :=
  if connOk then
    if execOk then
      if conflict db s then (db, SaveOutcome.DuplicateSkipped)
      else (⟨db.rows ++ [mkRow db.nextId now s], db.nextId + 1⟩, SaveOutcome.Saved)
    else (db, SaveOutcome.ConnectionFailed)
  else (db, SaveOutcome.ConnectionFailed)

/-- The ordering used by `fetch_all_sessions`: `ORDER BY date DESC`. -/
def dateDesc (a b : Row) : Prop := b.date ≤ a.date

instance : DecidableRel dateDesc := fun a b => Nat.decLe b.date a.date

instance : IsTotal Row dateDesc := ⟨fun a b => Nat.le_total b.date a.date⟩

instance : IsTrans Row dateDesc := ⟨fun _ _ _ h1 h2 => le_trans h2 h1⟩

/-- Model of `fetch_all_sessions` (src/utils/data_handler.py lines
111-126): `SELECT * FROM training_sessions ORDER BY date DESC`, returning
`[]` when the connection cannot be opened or the query raises (both report
an error to the user). -/
def fetch_all_sessions (connOk execOk : Bool) (db : DB) : List Row × FetchOutcome :=
  if connOk && execOk then (List.insertionSort dateDesc db.rows, FetchOutcome.FetchOk)
  else ([], FetchOutcome.ConnectionFailed)

/-- Model of `delete_session` (src/utils/data_handler.py lines 132-160):
`DELETE FROM training_sessions WHERE id = %s`, committed; `rowcount > 0`
distinguishes a real deletion from the not-found warning. -/
def delete_session (connOk execOk : Bool) (db : DB) (sid : Nat) : DB × DeleteOutcome :=
  if connOk && execOk then
    if db.rows.any (fun r => r.id == sid) then
      (⟨db.rows.filter (fun r => r.id != sid), db.nextId⟩, DeleteOutcome.Deleted)
    else (db, DeleteOutcome.NotFound)
  else (db, DeleteOutcome.ConnectionFailed)

/-- Saving a list of sessions in order against a healthy connection, as the
app does one form submission at a time. -/
def saveAll (now : Nat) (sessions : List TrainingSession) (db : DB) : DB :=
  sessions.foldl (fun d s => (save_training_session true true now d s).1) db

/-- The uniqueness invariant of the table: no two stored rows share the
`(date, session_type)` pair. -/
def PairUnique (db : DB) : Prop :=
  db.rows.Pairwise fun a b => ¬(a.date = b.date ∧ a.session_type = b.session_type)

/-- A sample session used to instantiate the universally quantified
theorems at concrete inputs. -/
def sampleSession (d : Nat) (ty : String) (rat : Int) : TrainingSession :=
  ⟨d, ty, 60, some "Striker (ST)", 0, 0, 0, 0, 0, 0, rat, ""⟩

lemma conflict_eq_false_iff (db : DB) (s : TrainingSession) :
    conflict db s = false ↔
      ∀ r ∈ db.rows, ¬(r.date = s.date ∧ r.session_type = s.session_type) := by
  simp [conflict, List.any_eq_true, not_and]

lemma pairUnique_save (c e : Bool) (now : Nat) (db : DB) (s : TrainingSession)
    (hu : PairUnique db) : PairUnique (save_training_session c e now db s).1 := by
  unfold save_training_session
  cases c with
  | false => exact hu
  | true =>
    cases e with
    | false => exact hu
    | true =>
      by_cases hc : conflict db s
      · simp [hc]; exact hu
      · simp only [eq_self_iff_true, if_true, Bool.not_eq_true] at hc ⊢
        rw [if_neg (by simp [hc])]
        unfold PairUnique
        simp only [List.pairwise_append, List.pairwise_singleton, true_and]
        refine ⟨hu, fun a ha b hb => ?_⟩
        simp only [List.mem_singleton] at hb
        subst hb
        have := (conflict_eq_false_iff db s).mp hc a ha
        simpa [mkRow] using this

/-- C1: for records r1, r2 sharing the same (date, sessionType), saving r1
then r2 leaves exactly one stored record, namely r1, with the second save
reported as a duplicate skip; and a save never breaks the invariant that no
two stored rows share a (date, sessionType) pair. -/
theorem save_duplicate_unique (r1 r2 : TrainingSession) (now1 now2 now : Nat)
    (c e : Bool) (db : DB) (s : TrainingSession)
    (hd : r1.date = r2.date) (ht : r1.session_type = r2.session_type)
    (hu : PairUnique db) :
    (save_training_session true true now2
        (save_training_session true true now1 emptyDB r1).1 r2).1.rows
      = [mkRow 1 now1 r1]
    ∧ (save_training_session true true now2
        (save_training_session true true now1 emptyDB r1).1 r2).2
      = SaveOutcome.DuplicateSkipped
    ∧ PairUnique (save_training_session c e now db s).1 := by
  have h1 : save_training_session true true now1 emptyDB r1
      = (⟨[mkRow 1 now1 r1], 2⟩, SaveOutcome.Saved) := by
    simp [save_training_session, conflict, emptyDB]
  have hc2 : conflict ⟨[mkRow 1 now1 r1], 2⟩ r2 = true := by
    simp [conflict, mkRow, hd, ht]
  refine ⟨?_, ?_, pairUnique_save c e now db s hu⟩
  · rw [h1]; simp [save_training_session, hc2]
  · rw [h1]; simp [save_training_session, hc2]

/-- Witness for C1 at concrete records sharing date 1 and type Match. -/
theorem save_duplicate_unique_witness :
    (save_training_session true true 9
        (save_training_session true true 8 emptyDB (sampleSession 1 "Match" 3)).1
        (sampleSession 1 "Match" 5)).1.rows
      = [mkRow 1 8 (sampleSession 1 "Match" 3)]
    ∧ (save_training_session true true 9
        (save_training_session true true 8 emptyDB (sampleSession 1 "Match" 3)).1
        (sampleSession 1 "Match" 5)).2
      = SaveOutcome.DuplicateSkipped
    ∧ PairUnique (save_training_session true true 8 emptyDB (sampleSession 1 "Match" 3)).1 :=
  save_duplicate_unique (sampleSession 1 "Match" 3) (sampleSession 1 "Match" 5)
    8 9 8 true true emptyDB (sampleSession 1 "Match" 3) rfl rfl
    (by simp [PairUnique, emptyDB])

/-- C2: a save signals exactly one of Saved, DuplicateSkipped,
ConnectionFailed; it is Saved exactly when the connection works and no
(date, sessionType) conflict exists, in which case exactly one new row is
appended; it is DuplicateSkipped exactly on a conflict, and on a duplicate
or failure the database is unchanged. -/
theorem save_outcome_spec (c e : Bool) (now : Nat) (db : DB) (s : TrainingSession) :
    ((save_training_session c e now db s).2 = SaveOutcome.Saved
        ↔ c = true ∧ e = true ∧ conflict db s = false)
    ∧ ((save_training_session c e now db s).2 = SaveOutcome.DuplicateSkipped
        ↔ c = true ∧ e = true ∧ conflict db s = true)
    ∧ ((save_training_session c e now db s).2 = SaveOutcome.ConnectionFailed
        ↔ c = false ∨ e = false)
    ∧ ((save_training_session c e now db s).2 = SaveOutcome.Saved
        → (save_training_session c e now db s).1.rows
            = db.rows ++ [mkRow db.nextId now s])
    ∧ ((save_training_session c e now db s).2 ≠ SaveOutcome.Saved
        → (save_training_session c e now db s).1 = db) := by
  cases c <;> cases e <;> by_cases hc : conflict db s <;>
    simp [save_training_session, hc]

/-- C6: when the connection to the store cannot be opened, or the query
raises, fetch_all_sessions returns the empty sequence and signals
ConnectionFailed. -/
theorem fetch_connection_failed (db : DB) (e c : Bool) :
    fetch_all_sessions false e db = ([], FetchOutcome.ConnectionFailed)
    ∧ fetch_all_sessions c false db = ([], FetchOutcome.ConnectionFailed) := by
  cases c <;> simp [fetch_all_sessions]

/-- The rows produced by inserting a list of sessions in order, the SERIAL
counter starting at `nextId`. -/
def insertRows (now : Nat) : Nat → List TrainingSession → List Row
  | _, [] => []
  | nextId, s :: rest => mkRow nextId now s :: insertRows now (nextId + 1) rest

/-- Pairwise distinctness of the (date, sessionType) pairs of a batch of
sessions. -/
def DistinctPairs (l : List TrainingSession) : Prop :=
  l.Pairwise fun a b => ¬(a.date = b.date ∧ a.session_type = b.session_type)

lemma insertRows_length (now n : Nat) (l : List TrainingSession) :
    (insertRows now n l).length = l.length := by
  induction l generalizing n with
  | nil => rfl
  | cons s rest ih => simp [insertRows, ih]

lemma saveAll_eq (now : Nat) (sessions : List TrainingSession) (db : DB)
    (hdist : DistinctPairs sessions)
    (hfresh : ∀ s ∈ sessions, conflict db s = false) :
    saveAll now sessions db
      = ⟨db.rows ++ insertRows now db.nextId sessions, db.nextId + sessions.length⟩ := by
  induction sessions generalizing db with
  | nil => cases db; simp [saveAll, insertRows]
  | cons s rest ih =>
    have hcs : conflict db s = false := hfresh s (List.mem_cons_self s rest)
    have hstep : (save_training_session true true now db s).1
        = ⟨db.rows ++ [mkRow db.nextId now s], db.nextId + 1⟩ := by
      simp [save_training_session, hcs]
    obtain ⟨hhead, htail⟩ := List.pairwise_cons.mp hdist
    have hfresh2 : ∀ s2 ∈ rest,
        conflict ⟨db.rows ++ [mkRow db.nextId now s], db.nextId + 1⟩ s2 = false := by
      intro s2 hs2
      rw [conflict_eq_false_iff]
      intro r hrmem
      simp only [List.mem_append, List.mem_singleton] at hrmem
      rcases hrmem with hold | rfl
      · exact (conflict_eq_false_iff db s2).mp (hfresh s2 (List.mem_cons_of_mem s hs2))
          r hold
      · simpa [mkRow] using hhead s2 hs2
    have hrec := ih ⟨db.rows ++ [mkRow db.nextId now s], db.nextId + 1⟩ htail hfresh2
    unfold saveAll at hrec ⊢
    simp only [List.foldl_cons]
    rw [hstep, hrec]
    simp only [insertRows, DB.mk.injEq, List.append_assoc, List.singleton_append,
      List.length_cons]
    exact ⟨trivial, by omega⟩

/-- C3: saving N sessions with pairwise-distinct (date, sessionType) pairs
into a fresh store and then fetching returns exactly those N records — the
stored rows are precisely the inserted sessions with ids 1..N — and the
fetched sequence is a permutation of the stored rows sorted by date
descending; fetching from an empty store returns the empty sequence with a
successful outcome. -/
theorem fetch_after_saveAll (now : Nat) (sessions : List TrainingSession)
    (hdist : DistinctPairs sessions) :
    (fetch_all_sessions true true (saveAll now sessions emptyDB)).1.length
      = sessions.length
    ∧ (fetch_all_sessions true true (saveAll now sessions emptyDB)).1.Perm
        (saveAll now sessions emptyDB).rows
    ∧ List.Sorted dateDesc (fetch_all_sessions true true (saveAll now sessions emptyDB)).1
    ∧ (saveAll now sessions emptyDB).rows = insertRows now 1 sessions
    ∧ fetch_all_sessions true true emptyDB = ([], FetchOutcome.FetchOk) := by
  have hdbeq : saveAll now sessions emptyDB
      = ⟨insertRows now 1 sessions, 1 + sessions.length⟩ := by
    have := saveAll_eq now sessions emptyDB hdist
      (fun s _ => by simp [conflict, emptyDB])
    simpa [emptyDB] using this
  refine ⟨?_, ?_, ?_, ?_, ?_⟩
  · rw [hdbeq]
    simp [fetch_all_sessions, insertRows_length]
  · simpa [fetch_all_sessions] using
      List.perm_insertionSort dateDesc (saveAll now sessions emptyDB).rows
  · simpa [fetch_all_sessions] using
      List.sorted_insertionSort dateDesc (saveAll now sessions emptyDB).rows
  · rw [hdbeq]
  · simp [fetch_all_sessions, emptyDB]

/-- Witness for C3 on two concrete sessions with distinct dates. -/
theorem fetch_after_saveAll_witness :
    (fetch_all_sessions true true
        (saveAll 5 [sampleSession 3 "Match" 5, sampleSession 1 "Match" 3] emptyDB)).1.length
      = [sampleSession 3 "Match" 5, sampleSession 1 "Match" 3].length
    ∧ (fetch_all_sessions true true
        (saveAll 5 [sampleSession 3 "Match" 5, sampleSession 1 "Match" 3] emptyDB)).1.Perm
        (saveAll 5 [sampleSession 3 "Match" 5, sampleSession 1 "Match" 3] emptyDB).rows
    ∧ List.Sorted dateDesc (fetch_all_sessions true true
        (saveAll 5 [sampleSession 3 "Match" 5, sampleSession 1 "Match" 3] emptyDB)).1
    ∧ (saveAll 5 [sampleSession 3 "Match" 5, sampleSession 1 "Match" 3] emptyDB).rows
        = insertRows 5 1 [sampleSession 3 "Match" 5, sampleSession 1 "Match" 3]
    ∧ fetch_all_sessions true true emptyDB = ([], FetchOutcome.FetchOk) :=
  fetch_after_saveAll 5 [sampleSession 3 "Match" 5, sampleSession 1 "Match" 3]
    (by unfold DistinctPairs; decide)

lemma filter_ne_length (rows : List Row) (sid : Nat) (r : Row)
    (hU : rows.Pairwise fun a b => a.id ≠ b.id) (hr : r ∈ rows) (hid : r.id = sid) :
    (rows.filter fun x => x.id != sid).length + 1 = rows.length := by
  induction rows with
  | nil => cases hr
  | cons x xs ih =>
    obtain ⟨hx, hxs⟩ := List.pairwise_cons.mp hU
    rcases List.mem_cons.mp hr with rfl | hr2
    · have hrest : xs.filter (fun y => y.id != sid) = xs := by
        rw [List.filter_eq_self]
        intro y hy
        simp only [bne_iff_ne, ne_eq]
        intro he
        exact hx y hy (by rw [hid, he])
      have hpr : (r.id != sid) = false := by simp [hid]
      simp [List.filter_cons, hpr, hrest]
    · have hpx : (x.id != sid) = true := by
        simp only [bne_iff_ne, ne_eq]
        intro he
        exact hx r hr2 (he.trans hid.symm)
      have hlen := ih hxs hr2
      simp only [List.filter_cons, hpx, if_true, List.length_cons]
      omega

/-- C4: deleting the id of a stored row (ids being unique, as the SERIAL
primary key guarantees) reports Deleted and removes exactly that row: the
remaining rows are those with a different id and the count drops by one; a
subsequent fetch contains no row with that id; deleting the same id again
reports NotFound and changes nothing; and a failed connection or statement
reports ConnectionFailed and changes nothing. -/
theorem delete_session_spec (db : DB) (sid : Nat) (r : Row)
    (c e : Bool) (db2 : DB) (sid2 : Nat)
    (hU : db.rows.Pairwise fun a b => a.id ≠ b.id)
    (hr : r ∈ db.rows) (hid : r.id = sid) :
    (delete_session true true db sid).2 = DeleteOutcome.Deleted
    ∧ (delete_session true true db sid).1.rows
        = db.rows.filter (fun x => x.id != sid)
    ∧ (delete_session true true db sid).1.rows.length + 1 = db.rows.length
    ∧ (∀ x ∈ (fetch_all_sessions true true (delete_session true true db sid).1).1,
        x.id ≠ sid)
    ∧ delete_session true true (delete_session true true db sid).1 sid
        = ((delete_session true true db sid).1, DeleteOutcome.NotFound)
    ∧ delete_session false e db2 sid2 = (db2, DeleteOutcome.ConnectionFailed)
    ∧ delete_session c false db2 sid2 = (db2, DeleteOutcome.ConnectionFailed) := by
  have hmem : db.rows.any (fun x => x.id == sid) = true :=
    List.any_eq_true.mpr ⟨r, hr, by simp [hid]⟩
  have hdel : delete_session true true db sid
      = (⟨db.rows.filter (fun x => x.id != sid), db.nextId⟩, DeleteOutcome.Deleted) := by
    simp [delete_session, hmem]
  have hnone : (db.rows.filter (fun x => x.id != sid)).any (fun x => x.id == sid)
      = false := by
    rw [Bool.eq_false_iff]
    intro hcontra
    obtain ⟨y, hy, hyid⟩ := List.any_eq_true.mp hcontra
    have := (List.mem_filter.mp hy).2
    simp at hyid this
    exact this hyid
  refine ⟨by rw [hdel], by rw [hdel], ?_, ?_, ?_, ?_, ?_⟩
  · rw [hdel]
    exact filter_ne_length db.rows sid r hU hr hid
  · intro x hxmem
    rw [hdel] at hxmem
    simp only [fetch_all_sessions, Bool.and_self, if_true] at hxmem
    have hxf := (List.mem_insertionSort dateDesc).mp hxmem
    have := (List.mem_filter.mp hxf).2
    simpa using this
  · rw [hdel]
    simp [delete_session, hnone]
  · simp [delete_session]
  · cases c <;> simp [delete_session]

/-- Witness for C4: a one-row store, deleting id 1. -/
theorem delete_session_spec_witness :
    (delete_session true true ⟨[mkRow 1 0 (sampleSession 1 "Match" 3)], 2⟩ 1).2
      = DeleteOutcome.Deleted
    ∧ (delete_session true true ⟨[mkRow 1 0 (sampleSession 1 "Match" 3)], 2⟩ 1).1.rows
        = [mkRow 1 0 (sampleSession 1 "Match" 3)].filter (fun x => x.id != 1)
    ∧ (delete_session true true ⟨[mkRow 1 0 (sampleSession 1 "Match" 3)], 2⟩ 1).1.rows.length + 1
        = [mkRow 1 0 (sampleSession 1 "Match" 3)].length
    ∧ (∀ x ∈ (fetch_all_sessions true true
        (delete_session true true ⟨[mkRow 1 0 (sampleSession 1 "Match" 3)], 2⟩ 1).1).1,
        x.id ≠ 1)
    ∧ delete_session true true
        (delete_session true true ⟨[mkRow 1 0 (sampleSession 1 "Match" 3)], 2⟩ 1).1 1
        = ((delete_session true true ⟨[mkRow 1 0 (sampleSession 1 "Match" 3)], 2⟩ 1).1,
            DeleteOutcome.NotFound)
    ∧ delete_session false true emptyDB 7 = (emptyDB, DeleteOutcome.ConnectionFailed)
    ∧ delete_session true false emptyDB 7 = (emptyDB, DeleteOutcome.ConnectionFailed) :=
  delete_session_spec ⟨[mkRow 1 0 (sampleSession 1 "Match" 3)], 2⟩ 1
    (mkRow 1 0 (sampleSession 1 "Match" 3)) true true emptyDB 7
    (List.pairwise_singleton _ _) (List.mem_singleton.mpr rfl) rfl

/-- C5 counterexample: with the storage backend unreachable (the
connection cannot be opened), create_table returns normally — the process
proceeds — rather than failing fatally, and the schema is not created. -/
theorem create_table_unreachable_not_fatal :
    create_table false true false = (false, SchemaOutcome.Continue)
    ∧ SchemaOutcome.Continue ≠ SchemaOutcome.Fatal := by
  refine ⟨rfl, ?_⟩
  intro h
  cases h

/-- C5 amended: create_table is idempotent on the schema state; when the
backend is unreachable it reports the connection error and returns
normally, leaving the schema unchanged and the process running; only an
exception raised by the schema statement itself escapes fatally. -/
theorem create_table_idempotent_nonfatal (c e t : Bool) :
    (create_table c e (create_table c e t).1).1 = (create_table c e t).1
    ∧ create_table false e t = (t, SchemaOutcome.Continue)
    ∧ create_table true false t = (t, SchemaOutcome.Fatal) := by
  cases c <;> cases e <;> cases t <;> simp [create_table]

/-- The rating column of a row as a rational, as pandas converts it for
mean and correlation computations. -/
def ratingQ (r : Row) : ℚ := (r.rating : ℚ)

/-- The duration column of a row as a rational. -/
def durationQ (r : Row) : ℚ := (r.duration_mins : ℚ)

/-- Arithmetic mean of a list of values; the empty-list value is junk and
is guarded at every use site. -/
def mean (xs : List ℚ) : ℚ := xs.sum / xs.length

/-- Model of pandas Series.mean: the float NaN produced on an empty series
is modelled as none. -/
def seriesMean (xs : List ℚ) : Option ℚ :=
  if xs.isEmpty then none else some (mean xs)

/-- Sum of centered products of two paired series, the shared numerator of
covariance and variance. -/
def covSum (xs ys : List ℚ) : ℚ :=
  ((xs.zip ys).map fun p => (p.1 - mean xs) * (p.2 - mean ys)).sum

/-- Centered sum of squares of one series. -/
def varSum (xs : List ℚ) : ℚ := covSum xs xs

/-- Exact representation of a Pearson coefficient num / √denSq, keeping
the radicand rational so the computation stays exact. -/
structure CorrRepr where
  num : ℚ
  denSq : ℚ
deriving DecidableEq

/-- Model of the pandas Pearson correlation used at
src/pages/dashboard.py lines 212-216 (corr matrix) and 455-460 (duration
vs rating): r = num / √denSq with num the centered product sum and denSq
the product of the centered square sums; the float NaN produced when fewer
than two records exist or either variance is zero (a 0/0 in floats) is
modelled as none. -/
def seriesCorr (xs ys : List ℚ) : Option CorrRepr :=
  if xs.length < 2 ∨ ys.length < 2 ∨ varSum xs = 0 ∨ varSum ys = 0 then none
  else some ⟨covSum xs ys, varSum xs * varSum ys⟩

/-- Pearson correlation of two numeric fields across all records. -/
def correlation (records : List Row) (fa fb : Row → ℚ) : Option CorrRepr :=
  seriesCorr (records.map fa) (records.map fb)

/-- C7: correlation of two fields returns the undefined sentinel — it does
not fault with a division by zero — whenever fewer than two records exist
or either field has zero variance. -/
theorem correlation_degenerate (records : List Row) (fa fb : Row → ℚ)
    (h : records.length < 2 ∨ varSum (records.map fa) = 0
        ∨ varSum (records.map fb) = 0) :
    correlation records fa fb = none := by
  unfold correlation seriesCorr
  rcases h with h | h | h
  · rw [if_pos]; left; simpa using h
  · rw [if_pos]; right; right; left; exact h
  · rw [if_pos]; right; right; right; exact h

/-- Witness for C7: a single-record sequence has undefined correlation. -/
theorem correlation_degenerate_witness :
    correlation [mkRow 1 0 (sampleSession 1 "Match" 3)] durationQ ratingQ = none :=
  correlation_degenerate [mkRow 1 0 (sampleSession 1 "Match" 3)] durationQ ratingQ
    (Or.inl (by simp))

/-- rollingAverage over a fetched (date-descending) sequence: the mean of
the field over the windowSize most recent records (df.head on the
descending sort in src/app.py, equivalently df.tail on the ascending sort
in src/pages/dashboard.py lines 68-69); NaN — modelled none — when the
window is empty. -/
def rollingAverage (records : List Row) (field : Row → ℚ) (windowSize : Nat) :
    Option ℚ :=
  seriesMean ((records.take windowSize).map field)

/-- formDelta: the rolling average of the rating minus the all-time mean
rating (rating_diff in src/pages/dashboard.py lines 70-71); the NaN of
either operand propagates. -/
def formDelta (records : List Row) (windowSize : Nat) : Option ℚ :=
  match rollingAverage records ratingQ windowSize,
      seriesMean (records.map ratingQ) with
  | some a, some b => some (a - b)
  | _, _ => none

/-- C8: the rolling average of an empty sequence is the undefined
sentinel, not zero and not an error; and in the three-Match scenario with
ratings 3, 4, 5 on dates 1 < 2 < 3, the fetched order is date-descending,
rollingAverage over window 3 of the rating is 4 and formDelta is 0. -/
theorem rollingAverage_empty_and_scenario (field : Row → ℚ) (w : Nat) :
    rollingAverage [] field w = none
    ∧ ((fetch_all_sessions true true
        (saveAll 9 [sampleSession 1 "Match" 3, sampleSession 2 "Match" 4,
          sampleSession 3 "Match" 5] emptyDB)).1.map (fun r => (r.date, r.rating))
        = [(3, 5), (2, 4), (1, 3)])
    ∧ rollingAverage (fetch_all_sessions true true
        (saveAll 9 [sampleSession 1 "Match" 3, sampleSession 2 "Match" 4,
          sampleSession 3 "Match" 5] emptyDB)).1 ratingQ 3 = some 4
    ∧ formDelta (fetch_all_sessions true true
        (saveAll 9 [sampleSession 1 "Match" 3, sampleSession 2 "Match" 4,
          sampleSession 3 "Match" 5] emptyDB)).1 3 = some 0 := by
  have hfetched : (fetch_all_sessions true true
      (saveAll 9 [sampleSession 1 "Match" 3, sampleSession 2 "Match" 4,
        sampleSession 3 "Match" 5] emptyDB)).1
      = [mkRow 3 9 (sampleSession 3 "Match" 5), mkRow 2 9 (sampleSession 2 "Match" 4),
          mkRow 1 9 (sampleSession 1 "Match" 3)] := by decide
  refine ⟨by simp [rollingAverage, seriesMean], by decide, ?_, ?_⟩
  · rw [hfetched]
    norm_num [rollingAverage, seriesMean, mean, ratingQ, mkRow, sampleSession]
  · rw [hfetched]
    norm_num [formDelta, rollingAverage, seriesMean, mean, ratingQ, mkRow,
      sampleSession]

/-- The label a row is grouped under: the dashboard and the Manage Data
tab fill a null position with a distinct physical-only label before
grouping (src/pages/dashboard.py line 54, src/app.py line 243). -/
def posLabel (r : Row) : String := r.position.getD "🏋️ Physical Only"

/-- groupByPosition: one group per distinct label in first-appearance
order, each holding the records carrying that label. -/
def groupByPosition (records : List Row) : List (String × List Row) :=
  ((records.map posLabel).dedup).map
    fun k => (k, records.filter fun r => posLabel r == k)

/-- A physical-only row: no position. -/
def physRow : Row := ⟨1, 1, "Physical Training", 30, none, 0, 0, 0, 0, 0, 0, 3, "", 0⟩

/-- A match row played as a striker. -/
def strikerRow : Row := ⟨2, 2, "Match", 90, some "Striker (ST)", 1, 0, 0, 0, 0, 0, 4, "", 0⟩

/-- C9: grouping by position never drops a record — every record lands in
the group carrying its label; a null-position record is labeled with the
distinct physical-only label, which differs from every named-position
label; and on one null-position record plus one striker record the
grouping yields exactly two groups, the null one labeled distinctly. -/
theorem groupByPosition_spec (records : List Row) (r rnull rpos : Row) (p : String)
    (hr : r ∈ records) (hnull : rnull.position = none)
    (hpos : rpos.position = some p) (hp : p ≠ "🏋️ Physical Only") :
    (∃ g ∈ groupByPosition records, r ∈ g.2)
    ∧ posLabel rnull = "🏋️ Physical Only"
    ∧ posLabel rpos = p
    ∧ posLabel rnull ≠ posLabel rpos
    ∧ groupByPosition [physRow, strikerRow]
        = [("🏋️ Physical Only", [physRow]), ("Striker (ST)", [strikerRow])] := by
  have hlr : posLabel rnull = "🏋️ Physical Only" := by simp [posLabel, hnull]
  have hlp : posLabel rpos = p := by simp [posLabel, hpos]
  refine ⟨?_, hlr, hlp, ?_, ?_⟩
  · refine ⟨(posLabel r, records.filter fun x => posLabel x == posLabel r), ?_, ?_⟩
    · exact List.mem_map.mpr ⟨posLabel r,
        List.mem_dedup.mpr (List.mem_map_of_mem posLabel hr), rfl⟩
    · exact List.mem_filter.mpr ⟨hr, by simp⟩
  · rw [hlr, hlp]
    exact fun h => hp h.symm
  · decide

/-- Witness for C9 at the two concrete rows. -/
theorem groupByPosition_spec_witness :
    (∃ g ∈ groupByPosition [physRow, strikerRow], physRow ∈ g.2)
    ∧ posLabel physRow = "🏋️ Physical Only"
    ∧ posLabel strikerRow = "Striker (ST)"
    ∧ posLabel physRow ≠ posLabel strikerRow
    ∧ groupByPosition [physRow, strikerRow]
        = [("🏋️ Physical Only", [physRow]), ("Striker (ST)", [strikerRow])] :=
  groupByPosition_spec [physRow, strikerRow] physRow physRow strikerRow
    "Striker (ST)" (List.mem_cons_self _ _) rfl rfl (by decide)

/-- Model of the dictionary returned by training_form
(src/utils/form_builder.py): the widget inputs after the conditional that
zeroes the counting stats for Physical Training. -/
structure FormData where
  date : Nat
  session_type : String
  duration_mins : Int
  position : String
  goals : Int
  assists : Int
  tackles : Int
  passes_completed : Int
  crosses : Int
  shots_on_target : Int
  rating : Int
  comments : String
deriving DecidableEq

/-- Model of training_form (src/utils/form_builder.py lines 41-53): when
the selected session type is not Physical Training the six counting
widgets are read; otherwise all six counting stats are set to 0, whatever
the widget inputs would have been. -/
def training_form (date : Nat) (session_type : String) (duration_mins : Int)
    (position : String)
    (goalsIn assistsIn tacklesIn passesIn crossesIn shotsIn : Int)
    (rating : Int) (comments : String) : FormData :=
  if session_type ≠ "Physical Training" then
    ⟨date, session_type, duration_mins, position, goalsIn, assistsIn, tacklesIn,
      passesIn, crossesIn, shotsIn, rating, comments⟩
  else
    ⟨date, session_type, duration_mins, position, 0, 0, 0, 0, 0, 0, rating, comments⟩

/-- Model of the TrainingSession built from the submitted form in
src/app.py lines 56-74, with the bench/fitness radio label coerced to a
null position. -/
def sessionOfForm (f : FormData) : TrainingSession :=
  ⟨f.date, f.session_type, f.duration_mins,
    if f.position = "None (Bench/Fitness Only)" then none else some f.position,
    f.goals, f.assists, f.tackles, f.passes_completed, f.crosses,
    f.shots_on_target, f.rating, f.comments⟩

/-- Invariant: every stored Physical Training row has all six counting
stats equal to 0. -/
def PhysicalStatsZero (db : DB) : Prop :=
  ∀ r ∈ db.rows, r.session_type = "Physical Training" →
    r.goals = 0 ∧ r.assists = 0 ∧ r.tackles = 0 ∧ r.passes_completed = 0
      ∧ r.crosses = 0 ∧ r.shots_on_target = 0

lemma physicalStatsZero_save (c e : Bool) (now : Nat) (db : DB)
    (s : TrainingSession) (hinv : PhysicalStatsZero db)
    (hs : s.session_type = "Physical Training" →
      s.goals = 0 ∧ s.assists = 0 ∧ s.tackles = 0 ∧ s.passes_completed = 0
        ∧ s.crosses = 0 ∧ s.shots_on_target = 0) :
    PhysicalStatsZero (save_training_session c e now db s).1 := by
  unfold save_training_session
  cases c with
  | false => exact hinv
  | true =>
    cases e with
    | false => exact hinv
    | true =>
      by_cases hc : conflict db s
      · simp only [hc, if_true]; exact hinv
      · simp only [Bool.not_eq_true] at hc
        simp only [hc, Bool.false_eq_true, if_false, if_true]
        unfold PhysicalStatsZero
        intro r hrmem hrtype
        rcases List.mem_append.mp hrmem with hold | hnew
        · exact hinv r hold hrtype
        · rw [List.mem_singleton] at hnew
          subst hnew
          simp only [mkRow] at hrtype ⊢
          exact hs hrtype

/-- C10: the form zeroes all six counting stats whenever the selected
session type is Physical Training, regardless of the widget inputs; hence
a save of any form-built session preserves the invariant that every
stored Physical Training record has all counting stats equal to 0. -/
theorem physical_training_zero_stats (date : Nat) (ty : String) (dur : Int)
    (pos : String) (g a t pc cr sh rat : Int) (cm : String)
    (c e : Bool) (now : Nat) (db : DB)
    (hinv : PhysicalStatsZero db) :
    ((training_form date "Physical Training" dur pos g a t pc cr sh rat cm).goals = 0
      ∧ (training_form date "Physical Training" dur pos g a t pc cr sh rat cm).assists = 0
      ∧ (training_form date "Physical Training" dur pos g a t pc cr sh rat cm).tackles = 0
      ∧ (training_form date "Physical Training" dur pos g a t pc cr sh rat cm).passes_completed = 0
      ∧ (training_form date "Physical Training" dur pos g a t pc cr sh rat cm).crosses = 0
      ∧ (training_form date "Physical Training" dur pos g a t pc cr sh rat cm).shots_on_target = 0)
    ∧ PhysicalStatsZero
        (save_training_session c e now db
          (sessionOfForm (training_form date ty dur pos g a t pc cr sh rat cm))).1 := by
  constructor
  · simp [training_form]
  · refine physicalStatsZero_save c e now db _ hinv ?_
    intro hty
    have hty2 : ty = "Physical Training" := by
      by_cases h : ty = "Physical Training"
      · exact h
      · exfalso
        apply h
        simp only [sessionOfForm, training_form] at hty
        rw [if_pos h] at hty
        simpa using hty
    subst hty2
    simp [sessionOfForm, training_form]

/-- Witness for C10: a Physical Training submission with nonzero widget
inputs saved into the empty store. -/
theorem physical_training_zero_stats_witness :
    ((training_form 1 "Physical Training" 30 "None (Bench/Fitness Only)"
        9 9 9 9 9 9 3 "").goals = 0
      ∧ (training_form 1 "Physical Training" 30 "None (Bench/Fitness Only)"
        9 9 9 9 9 9 3 "").assists = 0
      ∧ (training_form 1 "Physical Training" 30 "None (Bench/Fitness Only)"
        9 9 9 9 9 9 3 "").tackles = 0
      ∧ (training_form 1 "Physical Training" 30 "None (Bench/Fitness Only)"
        9 9 9 9 9 9 3 "").passes_completed = 0
      ∧ (training_form 1 "Physical Training" 30 "None (Bench/Fitness Only)"
        9 9 9 9 9 9 3 "").crosses = 0
      ∧ (training_form 1 "Physical Training" 30 "None (Bench/Fitness Only)"
        9 9 9 9 9 9 3 "").shots_on_target = 0)
    ∧ PhysicalStatsZero
        (save_training_session true true 0 emptyDB
          (sessionOfForm (training_form 1 "Physical Training" 30
            "None (Bench/Fitness Only)" 9 9 9 9 9 9 3 ""))).1 :=
  physical_training_zero_stats 1 "Physical Training" 30
    "None (Bench/Fitness Only)" 9 9 9 9 9 9 3 "" true true 0 emptyDB
    (fun r hr => absurd hr (List.not_mem_nil r))

end EthanTracker
